import Mathlib

/-!
Shallow embedding of the Hatchery modpack pipeline
(`src/backend/app/services/modpack_service.py` plus the `ModpackSource`
enum of `src/backend/app/models/egg.py`), together with theorems settling
the frozen claims about it.

Conventions of the embedding:
* Python `str` becomes `String`; string scanning is done on `List Char`
  (`String.toList`) so that lemmas can proceed by list induction.
* Python `int` becomes `Int`.
* Python `None` becomes `none`; Python truthiness of optional strings /
  ints is modelled explicitly (`pyOrStr`, `pyOrInt`, `pyTruthyStr`).
* The async HTTP calls of the fetchers are modelled by passing the
  outcome of each upstream request as an explicit `ApiResult` argument:
  `ApiResult.ok status body` is a completed HTTP response and
  `ApiResult.error msg` is any exception raised while performing or
  decoding that request (connection error, timeout, malformed JSON);
  JSON bodies are modelled by typed structures whose optional fields
  stand for absent-or-null JSON keys.
* `datetime.now(timezone.utc).isoformat()` inside `generate_egg_json`
  is modelled by an explicit `now : String` argument.
-/

namespace Hatchery

/-- Modpack source platform enumeration (`app/models/egg.py`, `ModpackSource`). -/
inductive ModpackSource where
  | CURSEFORGE
  | MODRINTH
  | UNKNOWN
deriving DecidableEq

/-- Supported modloader types (`modpack_service.py`, `ModpackType`). -/
inductive ModpackType where
  | FORGE
  | FABRIC
  | NEOFORGE
  | QUILT
  | VANILLA
deriving DecidableEq

/-- The string value of the Python `str`-enum `ModpackType`. -/
def ModpackType.value : ModpackType → String
  | .FORGE => "forge"
  | .FABRIC => "fabric"
  | .NEOFORGE => "neoforge"
  | .QUILT => "quilt"
  | .VANILLA => "vanilla"

/-- Container for parsed modpack information (`modpack_service.py`,
dataclass `ModpackInfo`).  The `mods: list[dict]` field (default `[]`)
is omitted: no code embedded here ever reads or writes it. -/
structure ModpackInfo where
  name : String := "Unknown Modpack"
  source : ModpackSource := .UNKNOWN
  source_url : String := ""
  slug : String := ""
  project_id : String := ""
  minecraft_version : Option String := none
  modloader : Option ModpackType := none
  modloader_version : Option String := none
  java_version : Int := 17
  description : Option String := none
  icon_url : Option String := none
  author : Option String := none
  mod_count : Int := 0
  download_url : Option String := none
  file_id : Option String := none
deriving DecidableEq

/-! ### Python string primitives used by the service -/

/-- ASCII space/tab/newline test (enough for `int(...)`-style stripping). -/
def isSpaceC (c : Char) : Bool := c = ' ' ∨ c = '\t' ∨ c = '\n' ∨ c = '\r'

/-- ASCII decimal digit test (regex class `\d` and `int()` digits). -/
def isDigitC (c : Char) : Bool := '0' ≤ c ∧ c ≤ '9'

/-- Character class `[a-zA-Z0-9-]` of the slug capture groups. -/
def isSlugChar (c : Char) : Bool :=
  ('a' ≤ c ∧ c ≤ 'z') ∨ ('A' ≤ c ∧ c ≤ 'Z') ∨ ('0' ≤ c ∧ c ≤ '9') ∨ c = '-'

/-- Character class `[a-zA-Z0-9]` of the Modrinth version-id capture group. -/
def isVerIdChar (c : Char) : Bool :=
  ('a' ≤ c ∧ c ≤ 'z') ∨ ('A' ≤ c ∧ c ≤ 'Z') ∨ ('0' ≤ c ∧ c ≤ '9')

/-- ASCII lower-casing of one character (model of `str.lower` on the
ASCII loader/version strings the service inspects). -/
def toLowerAscii (c : Char) : Char :=
  if 'A' ≤ c ∧ c ≤ 'Z' then Char.ofNat (c.toNat + 32) else c

/-- ASCII upper-casing of one character. -/
def toUpperAscii (c : Char) : Char :=
  if 'a' ≤ c ∧ c ≤ 'z' then Char.ofNat (c.toNat - 32) else c

/-- ASCII cased-letter test (model of Python's cased-character notion on
the ASCII slugs the service titles). -/
def isCasedC (c : Char) : Bool := ('a' ≤ c ∧ c ≤ 'z') ∨ ('A' ≤ c ∧ c ≤ 'Z')

/-- Model of Python `str.lower()` (ASCII). -/
def pyLower (s : String) : String := String.mk (s.toList.map toLowerAscii)

/-- Helper for `pyTitle`: the Boolean says whether the previous character
was a cased letter. -/
def titleAux : Bool → List Char → List Char
  | _, [] => []
  | prevCased, c :: rest =>
    if isCasedC c then
      (if prevCased then toLowerAscii c else toUpperAscii c) :: titleAux true rest
    else
      c :: titleAux false rest

/-- Model of Python `str.title()` (ASCII): a cased letter is upper-cased
after a non-cased character and lower-cased after a cased one. -/
def pyTitle (s : String) : String := String.mk (titleAux false s.toList)

/-- Model of Python `str.replace("-", " ")`. -/
def replaceDash (s : String) : String :=
  String.mk (s.toList.map (fun c => if c = '-' then ' ' else c))

/-- Strip a literal from the front of a list: `some rest` on success. -/
def dropLit : List Char → List Char → Option (List Char)
  | [], s => some s
  | _ :: _, [] => none
  | a :: as, b :: bs => if a = b then dropLit as bs else none

/-- Substring containment, model of Python `needle in haystack`. -/
def containsSeq (needle : List Char) : List Char → Bool
  | [] => (dropLit needle []).isSome
  | c :: rest => (dropLit needle (c :: rest)).isSome || containsSeq needle rest

/-- Model of Python `sub in s` on strings. -/
def strContains (s sub : String) : Bool := containsSeq sub.toList s.toList

/-- Accumulating decimal value of a digit list. -/
def digitsValAux (acc : Nat) : List Char → Nat
  | [] => acc
  | c :: r => digitsValAux (acc * 10 + (c.toNat - 48)) r

/-- Decimal value of a digit list. -/
def digitsVal (l : List Char) : Nat := digitsValAux 0 l

/-- Both-ends whitespace strip, model of the stripping `int()` performs. -/
def pyStrip (l : List Char) : List Char :=
  ((l.dropWhile isSpaceC).reverse.dropWhile isSpaceC).reverse

/-- Model of Python `int(s)` on decimal literals: optional surrounding
whitespace, an optional sign, then a nonempty digit run; anything else
raises `ValueError`, modelled as `none`. -/
def pyParseIntL (l : List Char) : Option Int :=
  match pyStrip l with
  | [] => none
  | c :: ds =>
    if c = '-' then
      if ds ≠ [] ∧ ds.all isDigitC then some (-(digitsVal ds : Int)) else none
    else if c = '+' then
      if ds ≠ [] ∧ ds.all isDigitC then some ((digitsVal ds : Int)) else none
    else
      if (c :: ds).all isDigitC then some ((digitsVal (c :: ds) : Int)) else none

/-- Model of Python `s.split(".")` on character lists: never empty,
`"" → [""]`, separators delimit possibly empty pieces. -/
def splitOnChar (sep : Char) : List Char → List (List Char)
  | [] => [[]]
  | c :: rest =>
    if c = sep then
      [] :: splitOnChar sep rest
    else
      match splitOnChar sep rest with
      | [] => [[c]]
      | g :: gs => (c :: g) :: gs

/-- Consume one-or-more digits (`\d+`): `some rest` on success. -/
def chompDigits : List Char → Option (List Char)
  | c :: rest => if isDigitC c then some (rest.dropWhile isDigitC) else none
  | [] => none

/-- Model of `re.match(r"^\d+\.\d+(\.\d+)?$", v)` being a match, used to
pick Minecraft versions out of `game_versions` lists (end-of-string `$`
is modelled as exact end). -/
def isMCVersion (s : String) : Bool :=
  match chompDigits s.toList with
  | none => false
  | some r1 =>
    match r1 with
    | '.' :: r2 =>
      match chompDigits r2 with
      | none => false
      | some r3 =>
        match r3 with
        | [] => true
        | '.' :: r4 =>
          match chompDigits r4 with
          | some [] => true
          | _ => false
        | _ => false
    | _ => false

/-! ### Python truthiness helpers -/

/-- Python `x or d` for an optional string `x` (`None` and `""` are falsy). -/
def pyOrStr (o : Option String) (d : String) : String :=
  match o with
  | none => d
  | some s => if s = "" then d else s

/-- Python `x or d` for an optional int `x` (`None` and `0` are falsy);
this is exactly `java_version or modpack_info.java_version`. -/
def pyOrInt (o : Option Int) (d : Int) : Int :=
  match o with
  | none => d
  | some v => if v = 0 then d else v

/-- Python `modpack_info.modloader or ModpackType.FORGE`: `None` is falsy,
every `ModpackType` member is truthy (its value is a nonempty string). -/
def pyOrLoader (o : Option ModpackType) : ModpackType := o.getD .FORGE

/-- Python truthiness of an optional string (`if modpack_info.download_url:`). -/
def pyTruthyStr (o : Option String) : Bool :=
  match o with
  | none => false
  | some s => s ≠ ""

/-! ### Source detector (`detect_source` and the URL patterns) -/

/-- Literal part of `CURSEFORGE_PATTERNS[0]`. -/
def cfLit1 : List Char := "curseforge.com/minecraft/modpacks/".toList

/-- Literal part of `CURSEFORGE_PATTERNS[1]`. -/
def cfLit2 : List Char := "legacy.curseforge.com/minecraft/modpacks/".toList

/-- Literal part of the optional `(?:/files/(\d+))?` group. -/
def filesLit : List Char := "/files/".toList

/-- Literal part of `MODRINTH_PATTERNS[0]`. -/
def mrLit : List Char := "modrinth.com/modpack/".toList

/-- Literal part of the optional `(?:/version/([a-zA-Z0-9]+))?` group. -/
def versionLit : List Char := "/version/".toList

/-- Match, at the current position, a pattern of the common shape
`lit (g1+) (?: lit2 (g2+) )?` shared by all three URL patterns; returns
the two capture groups.  The first group is greedy and its class never
contains the head of `lit2`, so no backtracking arises. -/
def matchGroups (lit : List Char) (g1 : Char → Bool) (lit2 : List Char) (g2 : Char → Bool)
    (s : List Char) : Option (List Char × Option (List Char)) :=
  match dropLit lit s with
  | none => none
  | some r =>
    let grp1 := r.takeWhile g1
    if grp1 = [] then none
    else
      let r2 := r.dropWhile g1
      match dropLit lit2 r2 with
      | none => some (grp1, none)
      | some r3 =>
        let grp2 := r3.takeWhile g2
        if grp2 = [] then some (grp1, none) else some (grp1, some grp2)

/-- Leftmost unanchored search with `matchGroups`, the model of
`re.search(pattern, url)` for the URL patterns. -/
def searchGroups (lit : List Char) (g1 : Char → Bool) (lit2 : List Char) (g2 : Char → Bool) :
    List Char → Option (List Char × Option (List Char))
  | [] => matchGroups lit g1 lit2 g2 []
  | c :: rest =>
    match matchGroups lit g1 lit2 g2 (c :: rest) with
    | some r => some r
    | none => searchGroups lit g1 lit2 g2 rest

/-- Detect the modpack source from a URL (`ModpackService.detect_source`):
CurseForge patterns are tried first, then Modrinth; no match yields
`(UNKNOWN, none, none)`. -/
def detect_source (url : String) : ModpackSource × Option String × Option String :=
  match searchGroups cfLit1 isSlugChar filesLit isDigitC url.toList with
  | some (s, v) => (.CURSEFORGE, some (String.mk s), v.map String.mk)
  | none =>
    match searchGroups cfLit2 isSlugChar filesLit isDigitC url.toList with
    | some (s, v) => (.CURSEFORGE, some (String.mk s), v.map String.mk)
    | none =>
      match searchGroups mrLit isSlugChar versionLit isVerIdChar url.toList with
      | some (s, v) => (.MODRINTH, some (String.mk s), v.map String.mk)
      | none => (.UNKNOWN, none, none)

/-! ### Java-version inference (`_detect_java_version`) -/

/-- Detect the required Java version from the Minecraft version
(`ModpackService._detect_java_version`): `None`/empty input gives 17,
`int()` failures on the first two dot-separated parts give 17, and the
major/minor table otherwise. -/
def detect_java_version (minecraft_version : Option String) : Int :=
  match minecraft_version with
  | none => 17
  | some mv =>
    if mv.toList = [] then 17
    else
      match splitOnChar '.' mv.toList with
      | [] => 17
      | p0 :: restParts =>
        match pyParseIntL p0 with
        | none => 17
        | some major =>
          match (match restParts with
                 | [] => some (0 : Int)
                 | p1 :: _ => pyParseIntL p1) with
          | none => 17
          | some minor =>
            if major = 1 then
              if minor ≥ 21 then 21
              else if minor ≥ 18 then 17
              else if minor ≥ 17 then 16
              else if minor ≥ 12 then 11
              else 8
            else 21

/-! ### Memory heuristic (`_get_recommended_memory`) -/

/-- Recommended memory (MB, as a string) from the mod count
(`ModpackService._get_recommended_memory`). -/
def get_recommended_memory (mod_count : Int) : String :=
  if mod_count > 200 then "6144"
  else if mod_count > 100 then "4096"
  else if mod_count > 50 then "3072"
  else if mod_count > 20 then "2048"
  else "1536"

/-! ### Upstream API modelling -/

/-- Outcome of one upstream HTTP request: `ok status body` is a completed
response, `error msg` is any exception raised while performing or decoding
it (connection failure, timeout, malformed JSON) — the events the
fetchers' `except Exception as e:` handlers absorb. -/
inductive ApiResult (α : Type) where
  | ok (status : Nat) (body : α)
  | error (msg : String)
deriving DecidableEq

/-- Modrinth `GET /project/{slug}` response body fields the code reads
(an `Option` field is an absent key). -/
structure MRProject where
  title : Option String := none
  id : Option String := none
  description : Option String := none
  icon_url : Option String := none
deriving DecidableEq

/-- One entry of a Modrinth version's `files` list. -/
structure MRFile where
  primary : Bool := false
  url : Option String := none
deriving DecidableEq

/-- One entry of a Modrinth version's `dependencies` list
(`dep.get("project_id", "")` defaults a missing key to `""`). -/
structure MRDep where
  project_id : String := ""
  version_id : Option String := none
deriving DecidableEq

/-- One entry of the Modrinth `GET /project/{slug}/version` response list. -/
structure MRVersion where
  id : Option String := none
  version_number : Option String := none
  game_versions : List String := []
  loaders : List String := []
  files : List MRFile := []
  dependencies : List MRDep := []
deriving DecidableEq

/-- CurseForge file entry (`latestFiles` element); `id` is a JSON number. -/
structure CFFile where
  id : Option Int := none
  downloadUrl : Option String := none
  gameVersions : List String := []
deriving DecidableEq

/-- CurseForge `logo` object. -/
structure CFLogo where
  url : Option String := none
deriving DecidableEq

/-- CurseForge `authors` entry. -/
structure CFAuthor where
  name : Option String := none
deriving DecidableEq

/-- CurseForge search-result entry (`data` element of `/mods/search`). -/
structure CFMod where
  id : Option Int := none
  name : Option String := none
  summary : Option String := none
  logo : Option CFLogo := none
  authors : List CFAuthor := []
  latestFiles : List CFFile := []
deriving DecidableEq

/-- Python `str(x.get("id", ""))`: a present numeric id prints as its
decimal string, a missing key stringifies the `""` default. -/
def cfIdStrD (o : Option Int) : String :=
  match o with
  | some n => toString n
  | none => ""

/-- Python `str(f.get("id"))`: a missing key stringifies `None` as `"None"`. -/
def cfIdStrNone (o : Option Int) : String :=
  match o with
  | some n => toString n
  | none => "None"

/-! ### Loader detection inside the fetchers -/

/-- Embedding of the Modrinth loader branch (`_fetch_modrinth_info`,
lines 166–176): the first entry of the selected version's `loaders`
list is lower-cased and checked for the substrings fabric, forge,
neoforge, quilt in that order; no entry or no match leaves `modloader`
unchanged (it is still `None` at that point). -/
def modrinthDetectLoader (loaders : List String) : Option ModpackType :=
  match loaders with
  | [] => none
  | l0 :: _ =>
    let loader := pyLower l0
    if strContains loader "fabric" then some .FABRIC
    else if strContains loader "forge" then some .FORGE
    else if strContains loader "neoforge" then some .NEOFORGE
    else if strContains loader "quilt" then some .QUILT
    else none

/-- Embedding of the CurseForge loader scan (`_fetch_curseforge_info`,
lines 270–283): each `gameVersions` string is lower-cased and checked
for the substrings fabric, neoforge, forge, quilt in that order; the
first string with a match decides and the loop breaks. -/
def curseforgeDetectLoader : List String → Option ModpackType
  | [] => none
  | v :: rest =>
    let vl := pyLower v
    if strContains vl "fabric" then some .FABRIC
    else if strContains vl "neoforge" then some .NEOFORGE
    else if strContains vl "forge" then some .FORGE
    else if strContains vl "quilt" then some .QUILT
    else curseforgeDetectLoader rest

/-! ### Modrinth fetcher (`_fetch_modrinth_info`) -/

/-- Slug-derived fallback applied by an `except` handler:
`slug.replace("-", " ").title()`. -/
def slugFallbackName (slug : String) : String := pyTitle (replaceDash slug)

/-- Dependency loop of the Modrinth fetcher (lines 185–192): every
dependency other than the hardcoded Fabric-API ids that carries a truthy
`version_id` overwrites `modloader_version`, provided a modloader is
already known; the last such dependency wins. -/
def mrDepsLoop (info : ModpackInfo) : List MRDep → ModpackInfo
  | [] => info
  | dep :: rest =>
    if dep.project_id = "P7dR8mSH" ∨ dep.project_id = "fabric-api" then
      mrDepsLoop info rest
    else
      match dep.version_id with
      | some vid =>
        if vid ≠ "" ∧ info.modloader.isSome then
          mrDepsLoop { info with modloader_version := some vid } rest
        else
          mrDepsLoop info rest
      | none => mrDepsLoop info rest

/-- Body of the Modrinth fetcher's 200-status versions branch
(lines 149–192): select the requested or first version, then fill
`file_id`, `minecraft_version`, `modloader`, `download_url` and
`modloader_version` from it. -/
def mrApplyVersions (info : ModpackInfo) (version_id : Option String)
    (versions : List MRVersion) : ModpackInfo :=
  match versions with
  | [] => info
  | v0 :: _ =>
    let version :=
      match version_id with
      | some vid =>
        if vid ≠ "" then
          (versions.find? (fun (v : MRVersion) => v.id == some vid || v.version_number == some vid)).getD v0
        else v0
      | none => v0
    let info := { info with file_id := version.id }
    let info :=
      match version.game_versions.filter isMCVersion with
      | [] => info
      | m :: _ => { info with minecraft_version := some m }
    let info :=
      match modrinthDetectLoader version.loaders with
      | some l => { info with modloader := some l }
      | none => info
    let info :=
      match version.files with
      | [] => info
      | f0 :: _ =>
        let primary_file := (version.files.find? (fun (f : MRFile) => f.primary)).getD f0
        { info with download_url := primary_file.url }
    mrDepsLoop info version.dependencies

/-- Fetch modpack info from the Modrinth API
(`ModpackService._fetch_modrinth_info`).  The two HTTP requests are
passed as explicit outcomes; an `error` in either one lands in the
`except` handler, which overwrites `name` and `description` with the
slug-derived fallback on whatever was built so far. -/
def fetch_modrinth_info (slug : String) (version_id : Option String) (url : String)
    (projectResp : ApiResult MRProject) (versionsResp : ApiResult (List MRVersion)) :
    ModpackInfo :=
  let info : ModpackInfo := { source := .MODRINTH, source_url := url, slug := slug }
  match projectResp with
  | .error e =>
    { info with name := slugFallbackName slug,
                description :=
                  some ("Modrinth modpack: " ++ slug ++ " (Error fetching details: " ++ e ++ ")") }
  | .ok pstatus pdata =>
    let info :=
      if pstatus = 200 then
        { info with name := pdata.title.getD slug,
                    project_id := pdata.id.getD "",
                    description := some (pdata.description.getD ""),
                    icon_url := pdata.icon_url }
      else info
    match versionsResp with
    | .error e =>
      { info with name := slugFallbackName slug,
                  description :=
                    some ("Modrinth modpack: " ++ slug ++ " (Error fetching details: " ++ e ++ ")") }
    | .ok vstatus versions =>
      let info := if vstatus = 200 then mrApplyVersions info version_id versions else info
      { info with java_version := detect_java_version info.minecraft_version }

/-! ### CurseForge fetcher (`_fetch_curseforge_info`) -/

/-- Body of the CurseForge fetcher's 200-status search branch
(lines 236–283): take the first search result and fill the display and
file fields from it. -/
def cfApplySearch (info : ModpackInfo) (file_id : Option String) (mods : List CFMod) :
    ModpackInfo :=
  match mods with
  | [] => info
  | m :: _ =>
    let info :=
      { info with project_id := cfIdStrD m.id,
                  name := m.name.getD info.slug,
                  description := some (m.summary.getD ""),
                  icon_url := (match m.logo with
                               | some lg => lg.url
                               | none => none),
                  author := (match m.authors with
                             | [] => info.author
                             | a :: _ => a.name) }
    match m.latestFiles with
    | [] => info
    | f0 :: _ =>
      let target_file :=
        match file_id with
        | some fid =>
          if fid ≠ "" then
            (m.latestFiles.find? (fun (f : CFFile) => cfIdStrNone f.id == fid)).getD f0
          else f0
        | none => f0
      let info := { info with file_id := some (cfIdStrD target_file.id),
                              download_url := target_file.downloadUrl }
      let info :=
        match target_file.gameVersions.filter isMCVersion with
        | [] => info
        | mv :: _ => { info with minecraft_version := some mv }
      match curseforgeDetectLoader target_file.gameVersions with
      | some l => { info with modloader := some l }
      | none => info

/-- Fetch modpack info from the CurseForge API
(`ModpackService._fetch_curseforge_info`).  A missing API key (the
`settings.curseforge_api_key` default is `""`) returns the slug-derived
fallback immediately; otherwise the single search request's outcome is
passed explicitly and an `error` lands in the `except` handler. -/
def fetch_curseforge_info (slug : String) (file_id : Option String) (url : String)
    (api_key : String) (searchResp : ApiResult (List CFMod)) : ModpackInfo :=
  let info : ModpackInfo := { source := .CURSEFORGE, source_url := url, slug := slug }
  if api_key = "" then
    { info with name := slugFallbackName slug,
                description := some ("CurseForge modpack: " ++ slug ++ " (API key not configured)") }
  else
    match searchResp with
    | .error e =>
      { info with name := slugFallbackName slug,
                  description := some ("CurseForge modpack: " ++ slug ++ " (Error: " ++ e ++ ")") }
    | .ok status mods =>
      let info := if status = 200 then cfApplySearch info file_id mods else info
      { info with java_version := detect_java_version info.minecraft_version }

/-! ### Pipeline entry (`fetch_modpack_info`) -/

/-- Placeholder returned for URLs no platform pattern matched
(`fetch_modpack_info`, `else` branch). -/
def unknownPlaceholder (src : ModpackSource) (url : String) : ModpackInfo :=
  { name := "Unknown Modpack",
    source := src,
    source_url := url,
    description :=
      some "Unable to parse modpack URL. Please provide a valid CurseForge or Modrinth URL." }

/-- Fetch modpack information from a URL (`ModpackService.fetch_modpack_info`):
detect the source, branch to the matching fetcher when a truthy slug was
extracted, and fall back to the placeholder otherwise.  The upstream
outcomes for whichever fetcher runs are passed explicitly. -/
def fetch_modpack_info (url : String)
    (projectResp : ApiResult MRProject) (versionsResp : ApiResult (List MRVersion))
    (cf_api_key : String) (searchResp : ApiResult (List CFMod)) : ModpackInfo :=
  match detect_source url with
  | (.MODRINTH, some slug, version_id) =>
    if slug ≠ "" then fetch_modrinth_info slug version_id url projectResp versionsResp
    else unknownPlaceholder .MODRINTH url
  | (.CURSEFORGE, some slug, file_id) =>
    if slug ≠ "" then fetch_curseforge_info slug file_id url cf_api_key searchResp
    else unknownPlaceholder .CURSEFORGE url
  | (src, _, _) => unknownPlaceholder src url

/-! ### Egg generator (`generate_egg_json` and its helpers) -/

/-- One variable-definition record of the egg's `variables` list. -/
structure EggVariable where
  name : String
  description : String
  env_variable : String
  default_value : String
  user_viewable : Bool
  user_editable : Bool
  rules : String
  field_type : String
deriving DecidableEq

/-- The egg's `meta` object. -/
structure EggMeta where
  version : String
  update_url : Option String
deriving DecidableEq

/-- The egg's `config` object (opaque panel-consumed strings). -/
structure EggConfigSection where
  files : String
  startup : String
  logs : String
  stop : String
deriving DecidableEq

/-- The egg's `scripts.installation` object. -/
structure EggInstallation where
  script : String
  container : String
  entrypoint : String
deriving DecidableEq

/-- The egg's `scripts` object. -/
structure EggScripts where
  installation : EggInstallation
deriving DecidableEq

/-- The Pterodactyl egg JSON structure produced by `generate_egg_json`
(field `comment` is the `"_comment"` key, field `variableList` the
`"variables"` key; `docker_images` keeps the Python dict's insertion
order as an association list). -/
structure EggJson where
  comment : String
  meta : EggMeta
  exported_at : String
  name : String
  author : String
  description : String
  features : List String
  docker_images : List (String × String)
  file_denylist : List String
  startup : String
  config : EggConfigSection
  scripts : EggScripts
  variableList : List EggVariable
deriving DecidableEq

/-- Docker image mapping for a Java version (`_get_docker_images`):
the effective version's image first, then "Java 17" and "Java 21"
fallbacks whenever they differ from it. -/
def get_docker_images (java_version : Int) : List (String × String) :=
  let base := "ghcr.io/pterodactyl/yolks"
  let images := [("Java " ++ toString java_version, base ++ ":java_" ++ toString java_version)]
  let images := if java_version ≠ 17 then images ++ [("Java 17", base ++ ":java_17")] else images
  let images := if java_version ≠ 21 then images ++ [("Java 21", base ++ ":java_21")] else images
  images

/-- Server startup command (`_get_startup_command`): fixed memory flags
plus a GC flag profile chosen by Java version (the `modloader` argument
is accepted but unused, as in the source). -/
def get_startup_command (modloader : ModpackType) (java_version : Int) : String :=
  let memory_flags := "-Xms128M -Xmx\x7b\x7bSERVER_MEMORY\x7d\x7dM"
  let jvm_flags :=
    if java_version ≥ 17 then
      "-XX:+UseG1GC -XX:+ParallelRefProcEnabled -XX:MaxGCPauseMillis=200 -XX:+UnlockExperimentalVMOptions -XX:+DisableExplicitGC -XX:+AlwaysPreTouch -XX:G1HeapWastePercent=5 -XX:G1MixedGCCountTarget=4 -XX:G1MixedGCLiveThresholdPercent=90 -XX:G1RSetUpdatingPauseTimePercent=5 -XX:SurvivorRatio=32 -XX:+PerfDisableSharedMem -XX:MaxTenuringThreshold=1"
    else
      "-XX:+UseG1GC -XX:+UnlockExperimentalVMOptions -XX:MaxGCPauseMillis=100 -XX:+DisableExplicitGC -XX:TargetSurvivorRatio=90 -XX:G1NewSizePercent=50 -XX:G1MaxNewSizePercent=80 -XX:G1HeapWastePercent=5 -XX:+UseStringDeduplication"
  "java " ++ memory_flags ++ " " ++ jvm_flags ++ " -jar \x7b\x7bSERVER_JARFILE\x7d\x7d"

/-- Fabric server installation script (`_get_fabric_install_script`). -/
def get_fabric_install_script (mc_version loader_version : String) (info : ModpackInfo) : String :=
  "#!/bin/bash\n# Fabric Server Installation Script - Generated by Hatchery\n# Modpack: " ++
  info.name ++
  "\n# Source: " ++
  info.source_url ++
  "\n\ncd /mnt/server || exit 1\n\necho \"🧵 Installing Fabric server for Minecraft " ++
  mc_version ++
  "\"\n\n# Install dependencies\napt-get update && apt-get install -y curl jq unzip\n\n# Clean up any existing files\nrm -rf mods/ config/ server.jar fabric-installer.jar\n\n# Create necessary directories\nmkdir -p mods config logs\n\nMINECRAFT_VERSION=\"" ++
  mc_version ++
  "\"\nFABRIC_VERSION=\"$\x7bFABRIC_VERSION:-" ++
  loader_version ++
  "\x7d\"\n\nif [[ \"$FABRIC_VERSION\" == \"latest\" ]]; then\n    echo \"⬇️ Fetching latest Fabric version...\"\n    FABRIC_VERSION=$(curl -sSL \"https://meta.fabricmc.net/v2/versions/loader\" | jq -r \x27.[0].version\x27)\nfi\n\n# Download Fabric installer\necho \"⬇️ Downloading Fabric installer...\"\nINSTALLER_VERSION=$(curl -sSL \"https://meta.fabricmc.net/v2/versions/installer\" | jq -r \x27.[0].version\x27)\ncurl -o fabric-installer.jar -sSL \"https://maven.fabricmc.net/net/fabricmc/fabric-installer/$INSTALLER_VERSION/fabric-installer-$INSTALLER_VERSION.jar\"\n\nif [[ ! -f fabric-installer.jar ]]; then\n    echo \"❌ Failed to download Fabric installer\"\n    exit 1\nfi\n\n# Install Fabric server\necho \"🔧 Installing Fabric server...\"\njava -jar fabric-installer.jar server -mcversion \"$MINECRAFT_VERSION\" -loader \"$FABRIC_VERSION\" -downloadMinecraft\n\n# Find and rename server jar\nSERVER_JAR=$(find . -maxdepth 1 -name \"fabric-server*.jar\" -o -name \"server.jar\" | head -n1)\nif [[ -n \"$SERVER_JAR\" && \"$SERVER_JAR\" != \"./server.jar\" ]]; then\n    mv \"$SERVER_JAR\" server.jar\nfi\n\nrm -f fabric-installer.jar\n\n# Download modpack if URL provided\nif [[ -n \"$\x7bMODPACK_URL\x7d\" ]]; then\n    echo \"📦 Downloading modpack...\"\n    curl -o modpack.zip -sSL \"$\x7bMODPACK_URL\x7d\"\n    if [[ -f modpack.zip ]]; then\n        unzip -o modpack.zip -d modpack_temp/\n        # Copy overrides\n        if [[ -d modpack_temp/overrides ]]; then\n            cp -r modpack_temp/overrides/* ./\n        fi\n        rm -rf modpack.zip modpack_temp/\n    fi\nfi\n\n# Accept EULA\necho \"eula=true\" > eula.txt\n\necho \"✅ Fabric server installation completed!\"\n"

/-- Forge server installation script (`_get_forge_install_script`). -/
def get_forge_install_script (mc_version loader_version : String) (info : ModpackInfo) : String :=
  "#!/bin/bash\n# Forge Server Installation Script - Generated by Hatchery\n# Modpack: " ++
  info.name ++
  "\n# Source: " ++
  info.source_url ++
  "\n\ncd /mnt/server || exit 1\n\necho \"🔥 Installing Forge server for Minecraft " ++
  mc_version ++
  "\"\n\n# Install dependencies\napt-get update && apt-get install -y curl jq unzip\n\n# Clean up any existing files\nrm -rf mods/ config/ server.jar forge-installer.jar\n\n# Create necessary directories\nmkdir -p mods config logs\n\nMINECRAFT_VERSION=\"" ++
  mc_version ++
  "\"\nFORGE_VERSION=\"$\x7bFORGE_VERSION:-" ++
  loader_version ++
  "\x7d\"\n\nif [[ \"$FORGE_VERSION\" == \"recommended\" ]] || [[ \"$FORGE_VERSION\" == \"latest\" ]]; then\n    echo \"⬇️ Fetching Forge version info...\"\n    FORGE_VERSION=$(curl -sSL \"https://files.minecraftforge.net/net/minecraftforge/forge/promotions_slim.json\" | jq -r \".promos[\\\"$MINECRAFT_VERSION-recommended\\\"] // .promos[\\\"$MINECRAFT_VERSION-latest\\\"]\")\nfi\n\nFORGE_URL=\"https://maven.minecraftforge.net/net/minecraftforge/forge/$MINECRAFT_VERSION-$FORGE_VERSION/forge-$MINECRAFT_VERSION-$FORGE_VERSION-installer.jar\"\n\necho \"⬇️ Downloading Forge installer...\"\ncurl -o forge-installer.jar -sSL \"$FORGE_URL\"\n\nif [[ ! -f forge-installer.jar ]]; then\n    echo \"❌ Failed to download Forge installer\"\n    exit 1\nfi\n\n# Install Forge\necho \"🔧 Installing Forge server...\"\njava -jar forge-installer.jar --installServer\n\n# Find the server jar\nSERVER_JAR=$(find . -maxdepth 1 -name \"forge-*.jar\" -not -name \"*installer*\" | head -n1)\nif [[ -n \"$SERVER_JAR\" ]]; then\n    cp \"$SERVER_JAR\" server.jar\nfi\n\nrm -f forge-installer.jar\n\n# Download modpack if URL provided\nif [[ -n \"$\x7bMODPACK_URL\x7d\" ]]; then\n    echo \"📦 Downloading modpack...\"\n    curl -o modpack.zip -sSL \"$\x7bMODPACK_URL\x7d\"\n    if [[ -f modpack.zip ]]; then\n        unzip -o modpack.zip -d modpack_temp/\n        # Copy overrides\n        if [[ -d modpack_temp/overrides ]]; then\n            cp -r modpack_temp/overrides/* ./\n        fi\n        rm -rf modpack.zip modpack_temp/\n    fi\nfi\n\n# Accept EULA\necho \"eula=true\" > eula.txt\n\necho \"✅ Forge server installation completed!\"\n"

/-- NeoForge server installation script (`_get_neoforge_install_script`). -/
def get_neoforge_install_script (mc_version loader_version : String) (info : ModpackInfo) : String :=
  "#!/bin/bash\n# NeoForge Server Installation Script - Generated by Hatchery\n# Modpack: " ++
  info.name ++
  "\n# Source: " ++
  info.source_url ++
  "\n\ncd /mnt/server || exit 1\n\necho \"⚡ Installing NeoForge server for Minecraft " ++
  mc_version ++
  "\"\n\n# Install dependencies\napt-get update && apt-get install -y curl jq unzip\n\n# Clean up any existing files\nrm -rf mods/ config/ server.jar neoforge-installer.jar\n\n# Create necessary directories\nmkdir -p mods config logs\n\nMINECRAFT_VERSION=\"" ++
  mc_version ++
  "\"\nNEOFORGE_VERSION=\"$\x7bNEOFORGE_VERSION:-" ++
  loader_version ++
  "\x7d\"\n\nif [[ \"$NEOFORGE_VERSION\" == \"latest\" ]]; then\n    echo \"⬇️ Fetching latest NeoForge version...\"\n    NEOFORGE_VERSION=$(curl -sSL \"https://maven.neoforged.net/api/maven/versions/releases/net/neoforged/neoforge\" | jq -r \x27.versions[-1]\x27)\nfi\n\nNEOFORGE_URL=\"https://maven.neoforged.net/releases/net/neoforged/neoforge/$NEOFORGE_VERSION/neoforge-$NEOFORGE_VERSION-installer.jar\"\n\necho \"⬇️ Downloading NeoForge installer...\"\ncurl -o neoforge-installer.jar -sSL \"$NEOFORGE_URL\"\n\nif [[ ! -f neoforge-installer.jar ]]; then\n    echo \"❌ Failed to download NeoForge installer\"\n    exit 1\nfi\n\n# Install NeoForge\necho \"🔧 Installing NeoForge server...\"\njava -jar neoforge-installer.jar --installServer\n\nrm -f neoforge-installer.jar\n\n# Download modpack if URL provided\nif [[ -n \"$\x7bMODPACK_URL\x7d\" ]]; then\n    echo \"📦 Downloading modpack...\"\n    curl -o modpack.zip -sSL \"$\x7bMODPACK_URL\x7d\"\n    if [[ -f modpack.zip ]]; then\n        unzip -o modpack.zip -d modpack_temp/\n        if [[ -d modpack_temp/overrides ]]; then\n            cp -r modpack_temp/overrides/* ./\n        fi\n        rm -rf modpack.zip modpack_temp/\n    fi\nfi\n\n# Accept EULA\necho \"eula=true\" > eula.txt\n\necho \"✅ NeoForge server installation completed!\"\n"

/-- Quilt server installation script (`_get_quilt_install_script`). -/
def get_quilt_install_script (mc_version loader_version : String) (info : ModpackInfo) : String :=
  "#!/bin/bash\n# Quilt Server Installation Script - Generated by Hatchery\n# Modpack: " ++
  info.name ++
  "\n# Source: " ++
  info.source_url ++
  "\n\ncd /mnt/server || exit 1\n\necho \"🪡 Installing Quilt server for Minecraft " ++
  mc_version ++
  "\"\n\n# Install dependencies\napt-get update && apt-get install -y curl jq unzip\n\n# Clean up any existing files\nrm -rf mods/ config/ server.jar quilt-installer.jar\n\n# Create necessary directories\nmkdir -p mods config logs\n\nMINECRAFT_VERSION=\"" ++
  mc_version ++
  "\"\nQUILT_VERSION=\"$\x7bQUILT_VERSION:-" ++
  loader_version ++
  "\x7d\"\n\nif [[ \"$QUILT_VERSION\" == \"latest\" ]]; then\n    echo \"⬇️ Fetching latest Quilt version...\"\n    QUILT_VERSION=$(curl -sSL \"https://meta.quiltmc.org/v3/versions/loader\" | jq -r \x27.[0].version\x27)\nfi\n\n# Download Quilt installer\necho \"⬇️ Downloading Quilt installer...\"\nINSTALLER_VERSION=$(curl -sSL \"https://meta.quiltmc.org/v3/versions/installer\" | jq -r \x27.[0].version\x27)\ncurl -o quilt-installer.jar -sSL \"https://maven.quiltmc.org/repository/release/org/quiltmc/quilt-installer/$INSTALLER_VERSION/quilt-installer-$INSTALLER_VERSION.jar\"\n\nif [[ ! -f quilt-installer.jar ]]; then\n    echo \"❌ Failed to download Quilt installer\"\n    exit 1\nfi\n\n# Install Quilt server\necho \"🔧 Installing Quilt server...\"\njava -jar quilt-installer.jar install server \"$MINECRAFT_VERSION\" \"$QUILT_VERSION\" --download-server\n\n# Rename to server.jar\nif [[ -f \"quilt-server-launch.jar\" ]]; then\n    mv quilt-server-launch.jar server.jar\nfi\n\nrm -f quilt-installer.jar\n\n# Download modpack if URL provided\nif [[ -n \"$\x7bMODPACK_URL\x7d\" ]]; then\n    echo \"📦 Downloading modpack...\"\n    curl -o modpack.zip -sSL \"$\x7bMODPACK_URL\x7d\"\n    if [[ -f modpack.zip ]]; then\n        unzip -o modpack.zip -d modpack_temp/\n        if [[ -d modpack_temp/overrides ]]; then\n            cp -r modpack_temp/overrides/* ./\n        fi\n        rm -rf modpack.zip modpack_temp/\n    fi\nfi\n\n# Accept EULA\necho \"eula=true\" > eula.txt\n\necho \"✅ Quilt server installation completed!\"\n"

/-- Vanilla server installation script (`_get_vanilla_install_script`). -/
def get_vanilla_install_script (mc_version : String) (info : ModpackInfo) : String :=
  "#!/bin/bash\n# Vanilla Server Installation Script - Generated by Hatchery\n# Modpack: " ++
  info.name ++
  "\n# Source: " ++
  info.source_url ++
  "\n\ncd /mnt/server || exit 1\n\necho \"🎮 Installing Vanilla Minecraft server " ++
  mc_version ++
  "\"\n\n# Install dependencies\napt-get update && apt-get install -y curl jq\n\nMINECRAFT_VERSION=\"" ++
  mc_version ++
  "\"\n\n# Get version manifest\necho \"⬇️ Fetching version manifest...\"\nVERSION_MANIFEST=$(curl -sSL \"https://launchermeta.mojang.com/mc/game/version_manifest.json\")\nVERSION_URL=$(echo \"$VERSION_MANIFEST\" | jq -r \".versions[] | select(.id==\\\"$MINECRAFT_VERSION\\\") | .url\")\n\nif [[ -z \"$VERSION_URL\" ]]; then\n    echo \"❌ Could not find Minecraft version $MINECRAFT_VERSION\"\n    exit 1\nfi\n\n# Get server download URL\nSERVER_URL=$(curl -sSL \"$VERSION_URL\" | jq -r \x27.downloads.server.url\x27)\n\necho \"⬇️ Downloading Minecraft server...\"\ncurl -o server.jar -sSL \"$SERVER_URL\"\n\n# Accept EULA\necho \"eula=true\" > eula.txt\n\necho \"✅ Vanilla server installation completed!\"\n"

/-- Installation-script selection (`_get_install_script`): defaults the
Minecraft version to "1.20.1" and the loader version to "latest"
(Python `or`, so `None` and `""` both default), then dispatches on the
modloader with Vanilla as the `else` branch. -/
def get_install_script (modpack_info : ModpackInfo) (modloader : ModpackType) : String :=
  let mc_version := pyOrStr modpack_info.minecraft_version "1.20.1"
  let loader_version := pyOrStr modpack_info.modloader_version "latest"
  match modloader with
  | .FABRIC => get_fabric_install_script mc_version loader_version modpack_info
  | .FORGE => get_forge_install_script mc_version loader_version modpack_info
  | .NEOFORGE => get_neoforge_install_script mc_version loader_version modpack_info
  | .QUILT => get_quilt_install_script mc_version loader_version modpack_info
  | .VANILLA => get_vanilla_install_script mc_version modpack_info

/-- Egg environment variables (`_get_variables`): three base records,
then one loader-version record for Fabric/Forge/NeoForge/Quilt (none
for Vanilla), then a Modpack-URL record when `download_url` is truthy. -/
def get_variables (modpack_info : ModpackInfo) (modloader : ModpackType)
    (java_version : Int) : List EggVariable :=
  let varlist : List EggVariable :=
    [{ name := "Server Jar File",
       description := "The name of the server jarfile to run.",
       env_variable := "SERVER_JARFILE",
       default_value := "server.jar",
       user_viewable := true,
       user_editable := true,
       rules := "required|string|max:50",
       field_type := "text" },
     { name := "Server Memory",
       description := "The maximum amount of memory (in MB) for the server.",
       env_variable := "SERVER_MEMORY",
       default_value := get_recommended_memory modpack_info.mod_count,
       user_viewable := true,
       user_editable := false,
       rules := "required|numeric|min:512",
       field_type := "text" },
     { name := "Minecraft Version",
       description := "The Minecraft version for the server.",
       env_variable := "MINECRAFT_VERSION",
       default_value := pyOrStr modpack_info.minecraft_version "1.20.1",
       user_viewable := true,
       user_editable := true,
       rules := "required|string|max:20",
       field_type := "text" }]
  let varlist :=
    match modloader with
    | .FABRIC =>
      varlist ++
        [{ name := "Fabric Version",
           description := "The version of Fabric loader to install.",
           env_variable := "FABRIC_VERSION",
           default_value := pyOrStr modpack_info.modloader_version "latest",
           user_viewable := true,
           user_editable := true,
           rules := "required|string|max:20",
           field_type := "text" }]
    | .FORGE =>
      varlist ++
        [{ name := "Forge Version",
           description := "The version of Forge to install.",
           env_variable := "FORGE_VERSION",
           default_value := pyOrStr modpack_info.modloader_version "recommended",
           user_viewable := true,
           user_editable := true,
           rules := "required|string|max:20",
           field_type := "text" }]
    | .NEOFORGE =>
      varlist ++
        [{ name := "NeoForge Version",
           description := "The version of NeoForge to install.",
           env_variable := "NEOFORGE_VERSION",
           default_value := pyOrStr modpack_info.modloader_version "latest",
           user_viewable := true,
           user_editable := true,
           rules := "required|string|max:20",
           field_type := "text" }]
    | .QUILT =>
      varlist ++
        [{ name := "Quilt Version",
           description := "The version of Quilt loader to install.",
           env_variable := "QUILT_VERSION",
           default_value := pyOrStr modpack_info.modloader_version "latest",
           user_viewable := true,
           user_editable := true,
           rules := "required|string|max:20",
           field_type := "text" }]
    | .VANILLA => varlist
  if pyTruthyStr modpack_info.download_url then
    varlist ++
      [{ name := "Modpack URL",
         description := "Direct download URL for the modpack.",
         env_variable := "MODPACK_URL",
         default_value := modpack_info.download_url.getD "",
         user_viewable := true,
         user_editable := true,
         rules := "nullable|url",
         field_type := "text" }]
  else varlist

/-- Generate a Pterodactyl egg JSON configuration
(`ModpackService.generate_egg_json`).  `java_version` is the optional
override (`java_version or modpack_info.java_version`, so `None` and `0`
both fall back), the modloader defaults to FORGE, and the
`datetime.now(timezone.utc).isoformat()` timestamp is the explicit
`now` argument. -/
def generate_egg_json (modpack_info : ModpackInfo) (java_version : Option Int)
    (now : String) : EggJson :=
  let java_ver := pyOrInt java_version modpack_info.java_version
  let modloader := pyOrLoader modpack_info.modloader
  { comment := "DO NOT EDIT: FILE GENERATED AUTOMATICALLY BY HATCHERY",
    meta := { version := "PTDL_v2", update_url := none },
    exported_at := now,
    name := modpack_info.name,
    author := "hatchery@generated.local",
    description :=
      pyOrStr modpack_info.description
        ("Generated " ++ pyTitle modloader.value ++ " server for " ++ modpack_info.name),
    features := ["eula", "java_version", "pid_limit"],
    docker_images := get_docker_images java_ver,
    file_denylist := [],
    startup := get_startup_command modloader java_ver,
    config :=
      { files := "\x7b\r\n    \"server.properties\": \x7b\r\n        \"parser\": \"properties\",\r\n        \"find\": \x7b\r\n            \"server-port\": \"\x7b\x7bserver.build.default.port\x7d\x7d\",\r\n            \"enable-query\": \"true\",\r\n            \"query.port\": \"\x7b\x7bserver.build.default.port\x7d\x7d\"\r\n        \x7d\r\n    \x7d\r\n\x7d",
        startup := "\x7b\r\n    \"done\": \")! For help, type \"\r\n\x7d",
        logs := "\x7b\r\n    \"custom\": false,\r\n    \"location\": \"logs/latest.log\"\r\n\x7d",
        stop := "stop" },
    scripts :=
      { installation :=
          { script := get_install_script modpack_info modloader,
            container := "eclipse-temurin:" ++ toString java_ver ++ "-jdk",
            entrypoint := "bash" } },
    variableList := get_variables modpack_info modloader java_ver }

/-! ### Generic list lemmas -/

theorem dropLit_self (l s : List Char) : dropLit l (l ++ s) = some s := by
  induction l with
  | nil => rfl
  | cons a t ih => simp [dropLit, ih]

theorem takeWhile_append_of (p : Char → Bool) (xs : List Char) (d : Char) (rest : List Char)
    (hxs : ∀ c ∈ xs, p c = true) (hd : p d = false) :
    (xs ++ d :: rest).takeWhile p = xs := by
  induction xs with
  | nil => simp [List.takeWhile_cons, hd]
  | cons a t ih =>
    have ha : p a = true := hxs a (by simp)
    simp only [List.cons_append, List.takeWhile_cons, ha, if_true]
    rw [ih (fun c hc => hxs c (by simp [hc]))]

theorem dropWhile_append_of (p : Char → Bool) (xs : List Char) (d : Char) (rest : List Char)
    (hxs : ∀ c ∈ xs, p c = true) (hd : p d = false) :
    (xs ++ d :: rest).dropWhile p = d :: rest := by
  induction xs with
  | nil => simp [List.dropWhile_cons, hd]
  | cons a t ih =>
    have ha : p a = true := hxs a (by simp)
    simp only [List.cons_append, List.dropWhile_cons, ha, if_true]
    exact ih (fun c hc => hxs c (by simp [hc]))

theorem dropWhile_eq_self_of (p : Char → Bool) (l : List Char)
    (h : ∀ c ∈ l, p c = false) : l.dropWhile p = l := by
  cases l with
  | nil => rfl
  | cons a t => simp [List.dropWhile_cons, h a (by simp)]

/-! ### Decimal rendering of naturals, for stating the Java-version table
over arbitrary version numbers -/

/-- Decimal digit character of a value below ten. -/
def digitChar : Nat → Char
  | 0 => '0'
  | 1 => '1'
  | 2 => '2'
  | 3 => '3'
  | 4 => '4'
  | 5 => '5'
  | 6 => '6'
  | 7 => '7'
  | 8 => '8'
  | _ => '9'

/-- Decimal digit string of a natural number, most significant first. -/
def natDigits (n : Nat) : List Char :=
  if h : n < 10 then [digitChar n]
  else natDigits (n / 10) ++ [digitChar (n % 10)]
termination_by n
decreasing_by exact Nat.div_lt_self (by omega) (by omega)

theorem digitChar_isDigit (d : Nat) (h : d < 10) : isDigitC (digitChar d) = true := by
  interval_cases d <;> decide

theorem digitChar_toNat (d : Nat) (h : d < 10) : (digitChar d).toNat = 48 + d := by
  interval_cases d <;> decide

theorem natDigits_ne_nil (n : Nat) : natDigits n ≠ [] := by
  rw [natDigits]
  split
  · simp
  · simp

theorem natDigits_all_digit (n : Nat) : ∀ c ∈ natDigits n, isDigitC c = true := by
  induction n using Nat.strong_induction_on with
  | _ n ih =>
    rw [natDigits]
    split
    · intro c hc
      simp only [List.mem_singleton] at hc
      subst hc
      exact digitChar_isDigit n (by omega)
    · intro c hc
      rename_i h
      rw [List.mem_append] at hc
      rcases hc with hc | hc
      · exact ih (n / 10) (Nat.div_lt_self (by omega) (by omega)) c hc
      · simp only [List.mem_singleton] at hc
        subst hc
        exact digitChar_isDigit (n % 10) (Nat.mod_lt _ (by omega))

theorem digitsValAux_append (acc : Nat) (xs ys : List Char) :
    digitsValAux acc (xs ++ ys) = digitsValAux (digitsValAux acc xs) ys := by
  induction xs generalizing acc with
  | nil => rfl
  | cons a t ih =>
    rw [List.cons_append]
    show digitsValAux (acc * 10 + (a.toNat - 48)) (t ++ ys) =
      digitsValAux (digitsValAux (acc * 10 + (a.toNat - 48)) t) ys
    exact ih _

theorem digitsValAux_singleton (acc : Nat) (c : Char) :
    digitsValAux acc [c] = acc * 10 + (c.toNat - 48) := rfl

theorem digitsValAux_natDigits (n : Nat) :
    ∀ acc, digitsValAux acc (natDigits n) = acc * 10 ^ (natDigits n).length + n := by
  induction n using Nat.strong_induction_on with
  | _ n ih =>
    intro acc
    rw [natDigits]
    split
    · rename_i h
      rw [digitsValAux_singleton, digitChar_toNat n h, List.length_singleton]
      simp [pow_one]
    · rename_i h
      rw [digitsValAux_append]
      have hdiv : n / 10 < n := Nat.div_lt_self (by omega) (by omega)
      rw [ih (n / 10) hdiv acc]
      rw [digitsValAux_singleton, digitChar_toNat (n % 10) (Nat.mod_lt _ (by omega))]
      rw [List.length_append, List.length_singleton, pow_succ, ← mul_assoc]
      generalize acc * 10 ^ (natDigits (n / 10)).length = Q
      omega

theorem digitsVal_natDigits (n : Nat) : digitsVal (natDigits n) = n := by
  unfold digitsVal
  rw [digitsValAux_natDigits n 0]
  simp

theorem isDigit_not_space (c : Char) (h : isDigitC c = true) : isSpaceC c = false := by
  have h0 : ¬ c = ' ' := by rintro rfl; simp [isDigitC] at h
  have h1 : ¬ c = '\t' := by rintro rfl; simp [isDigitC] at h
  have h2 : ¬ c = '\n' := by rintro rfl; simp [isDigitC] at h
  have h3 : ¬ c = '\r' := by rintro rfl; simp [isDigitC] at h
  simp [isSpaceC, h0, h1, h2, h3]

theorem pyStrip_of_all_digits (l : List Char) (h : ∀ c ∈ l, isDigitC c = true) :
    pyStrip l = l := by
  unfold pyStrip
  rw [dropWhile_eq_self_of _ _ (fun c hc => isDigit_not_space c (h c hc))]
  rw [dropWhile_eq_self_of _ _ (fun c hc => isDigit_not_space c (h c (List.mem_reverse.mp hc)))]
  exact List.reverse_reverse l

theorem isDigit_not_sign (c : Char) (h : isDigitC c = true) : ¬ c = '-' ∧ ¬ c = '+' := by
  constructor
  · rintro rfl; simp [isDigitC] at h
  · rintro rfl; simp [isDigitC] at h

theorem pyParseIntL_natDigits (n : Nat) : pyParseIntL (natDigits n) = some (n : Int) := by
  obtain ⟨c, cs, hcons⟩ := List.exists_cons_of_ne_nil (natDigits_ne_nil n)
  have hall := natDigits_all_digit n
  have hc : isDigitC c = true := hall c (by rw [hcons]; simp)
  have hsign := isDigit_not_sign c hc
  unfold pyParseIntL
  rw [pyStrip_of_all_digits _ hall, hcons]
  simp only [if_neg hsign.1, if_neg hsign.2]
  have hallcons : (c :: cs).all isDigitC = true := by
    rw [List.all_eq_true]
    intro x hx
    exact hall x (by rw [hcons]; exact hx)
  rw [if_pos hallcons, ← hcons, digitsVal_natDigits]

/-! ### Behaviour of the dot split on well-formed version strings -/

theorem splitOnChar_of_no_sep (sep : Char) (l : List Char) (h : ∀ c ∈ l, ¬ c = sep) :
    splitOnChar sep l = [l] := by
  induction l with
  | nil => rfl
  | cons a t ih =>
    have ha : ¬ a = sep := h a (by simp)
    rw [splitOnChar, if_neg ha, ih (fun c hc => h c (by simp [hc]))]

theorem splitOnChar_append (sep : Char) (A B : List Char) (h : ∀ c ∈ A, ¬ c = sep) :
    splitOnChar sep (A ++ sep :: B) = A :: splitOnChar sep B := by
  induction A with
  | nil => simp [splitOnChar]
  | cons a t ih =>
    have ha : ¬ a = sep := h a (by simp)
    rw [List.cons_append, splitOnChar, if_neg ha, ih (fun c hc => h c (by simp [hc]))]

theorem natDigits_ne_dot (n : Nat) : ∀ c ∈ natDigits n, ¬ c = '.' := by
  intro c hc
  have hd := natDigits_all_digit n c hc
  rintro rfl
  simp [isDigitC] at hd

/-- Two-component numeric version string `a.b` (statement helper for the
Java-inference claim; rendered with `natDigits`). -/
def verS2 (a b : Nat) : String := String.mk (natDigits a ++ '.' :: natDigits b)

/-- Three-component numeric version string `a.b.c` (statement helper). -/
def verS3 (a b c : Nat) : String :=
  String.mk (natDigits a ++ '.' :: (natDigits b ++ '.' :: natDigits c))

/-- The major/minor tier table of §4.4, over `Nat` arguments (statement
helper for comparing `detect_java_version` against the claimed table). -/
def djTable (major minor : Nat) : Int :=
  if major = 1 then
    if minor ≥ 21 then 21
    else if minor ≥ 18 then 17
    else if minor ≥ 17 then 16
    else if minor ≥ 12 then 11
    else 8
  else 21

theorem detect_java_verS2 (a b : Nat) :
    detect_java_version (some (verS2 a b)) = djTable a b := by
  have hAne := natDigits_ne_nil a
  have hL : (verS2 a b).toList = natDigits a ++ '.' :: natDigits b := rfl
  simp only [detect_java_version, hL]
  rw [if_neg (by simp [hAne])]
  rw [splitOnChar_append '.' _ _ (natDigits_ne_dot a),
      splitOnChar_of_no_sep '.' _ (natDigits_ne_dot b)]
  simp only [pyParseIntL_natDigits]
  unfold djTable
  split_ifs <;> omega

theorem detect_java_verS3 (a b c : Nat) :
    detect_java_version (some (verS3 a b c)) = djTable a b := by
  have hAne := natDigits_ne_nil a
  have hL : (verS3 a b c).toList = natDigits a ++ '.' :: (natDigits b ++ '.' :: natDigits c) := rfl
  simp only [detect_java_version, hL]
  rw [if_neg (by simp [hAne])]
  rw [splitOnChar_append '.' _ _ (natDigits_ne_dot a),
      splitOnChar_append '.' _ _ (natDigits_ne_dot b),
      splitOnChar_of_no_sep '.' _ (natDigits_ne_dot c)]
  simp only [pyParseIntL_natDigits]
  unfold djTable
  split_ifs <;> omega

/-! ### Lemmas about the unanchored pattern search -/

theorem matchGroups_isSome (lit : List Char) (g1 : Char → Bool) (lit2 : List Char)
    (g2 : Char → Bool) (c : Char) (s : List Char) (hc : g1 c = true) :
    (matchGroups lit g1 lit2 g2 (lit ++ c :: s)).isSome = true := by
  unfold matchGroups
  rw [dropLit_self]
  simp only [List.takeWhile_cons, hc, if_true]
  rw [if_neg (by simp)]
  cases dropLit lit2 ((c :: s).dropWhile g1) <;> simp <;> split_ifs <;> simp

theorem searchGroups_isSome_of_contains (lit : List Char) (g1 : Char → Bool) (lit2 : List Char)
    (g2 : Char → Bool) (p : List Char) (c : Char) (s : List Char) (hc : g1 c = true) :
    (searchGroups lit g1 lit2 g2 (p ++ lit ++ c :: s)).isSome = true := by
  induction p with
  | nil =>
    rw [List.nil_append]
    have hm := matchGroups_isSome lit g1 lit2 g2 c s hc
    cases hl : lit ++ c :: s with
    | nil => cases lit <;> simp at hl
    | cons d t =>
      rw [hl] at hm
      unfold searchGroups
      obtain ⟨r, hr⟩ := Option.isSome_iff_exists.mp hm
      rw [hr]
      rfl
  | cons x p' ih =>
    simp only [List.cons_append]
    unfold searchGroups
    cases hm : matchGroups lit g1 lit2 g2 (x :: (p' ++ lit ++ c :: s)) with
    | some r => rfl
    | none => exact ih

theorem matchGroups_slug (lit : List Char) (g1 : Char → Bool) (lit2 : List Char)
    (g2 : Char → Bool) (slug : List Char) (d : Char) (rest : List Char)
    (hne : slug ≠ []) (hall : ∀ c ∈ slug, g1 c = true) (hd : g1 d = false) :
    ∃ v, matchGroups lit g1 lit2 g2 (lit ++ (slug ++ d :: rest)) = some (slug, v) := by
  unfold matchGroups
  rw [dropLit_self]
  simp only [takeWhile_append_of g1 slug d rest hall hd,
    dropWhile_append_of g1 slug d rest hall hd, hne, if_false]
  cases dropLit lit2 (d :: rest) with
  | none => exact ⟨none, rfl⟩
  | some r3 =>
    by_cases hg : r3.takeWhile g2 = []
    · exact ⟨none, by simp [hg]⟩
    · exact ⟨some (r3.takeWhile g2), by simp [hg]⟩

/-- No match of the pattern starts strictly inside `p` when scanning
`p ++ X`. -/
def noMatchBefore (lit : List Char) (g1 : Char → Bool) (lit2 : List Char) (g2 : Char → Bool) :
    List Char → List Char → Bool
  | [], _ => true
  | c :: t, X =>
    (matchGroups lit g1 lit2 g2 ((c :: t) ++ X)).isNone &&
      noMatchBefore lit g1 lit2 g2 t X

theorem searchGroups_append_of_noMatchBefore (lit : List Char) (g1 : Char → Bool)
    (lit2 : List Char) (g2 : Char → Bool) (p X : List Char)
    (h : noMatchBefore lit g1 lit2 g2 p X = true) :
    searchGroups lit g1 lit2 g2 (p ++ X) = searchGroups lit g1 lit2 g2 X := by
  induction p with
  | nil => rfl
  | cons c t ih =>
    unfold noMatchBefore at h
    rw [Bool.and_eq_true] at h
    have hm : matchGroups lit g1 lit2 g2 (c :: (t ++ X)) = none := by
      have := Option.isNone_iff_eq_none.mp h.1
      simpa using this
    have hstep : searchGroups lit g1 lit2 g2 (c :: (t ++ X)) =
        searchGroups lit g1 lit2 g2 (t ++ X) := by
      show (match matchGroups lit g1 lit2 g2 (c :: (t ++ X)) with
            | some r => some r
            | none => searchGroups lit g1 lit2 g2 (t ++ X)) =
        searchGroups lit g1 lit2 g2 (t ++ X)
      rw [hm]
    rw [List.cons_append, hstep]
    exact ih h.2

theorem searchGroups_slug_head (lit : List Char) (g1 : Char → Bool) (lit2 : List Char)
    (g2 : Char → Bool) (slug : List Char) (d : Char) (rest : List Char)
    (hlit : lit ≠ []) (hne : slug ≠ []) (hall : ∀ c ∈ slug, g1 c = true)
    (hd : g1 d = false) :
    ∃ v, searchGroups lit g1 lit2 g2 (lit ++ (slug ++ d :: rest)) = some (slug, v) := by
  obtain ⟨a, lt, hl⟩ := List.exists_cons_of_ne_nil hlit
  subst hl
  obtain ⟨v, hv⟩ := matchGroups_slug (a :: lt) g1 lit2 g2 slug d rest hne hall hd
  refine ⟨v, ?_⟩
  rw [List.cons_append] at hv ⊢
  have hstep : searchGroups (a :: lt) g1 lit2 g2 (a :: (lt ++ (slug ++ d :: rest))) =
      (match matchGroups (a :: lt) g1 lit2 g2 (a :: (lt ++ (slug ++ d :: rest))) with
       | some r => some r
       | none => searchGroups (a :: lt) g1 lit2 g2 (lt ++ (slug ++ d :: rest))) := rfl
  rw [hstep, hv]

/-! ### The placeholder path of the pipeline -/

theorem fetch_unknown_eq (url : String) (pr : ApiResult MRProject)
    (vr : ApiResult (List MRVersion)) (key : String) (sr : ApiResult (List CFMod))
    (h : (detect_source url).1 = ModpackSource.UNKNOWN) :
    fetch_modpack_info url pr vr key sr = unknownPlaceholder .UNKNOWN url := by
  unfold fetch_modpack_info
  rcases hd : detect_source url with ⟨s, o1, o2⟩
  rw [hd] at h
  simp only at h
  subst h
  cases o1 <;> rfl

/-! ### Shape of the generated variable list -/

theorem get_variables_base (info : ModpackInfo) (ml : ModpackType) (jv : Int) :
    ∃ suffix, get_variables info ml jv =
      { name := "Server Jar File", description := "The name of the server jarfile to run.",
        env_variable := "SERVER_JARFILE", default_value := "server.jar", user_viewable := true,
        user_editable := true, rules := "required|string|max:50", field_type := "text" } ::
      { name := "Server Memory",
        description := "The maximum amount of memory (in MB) for the server.",
        env_variable := "SERVER_MEMORY",
        default_value := get_recommended_memory info.mod_count, user_viewable := true,
        user_editable := false, rules := "required|numeric|min:512", field_type := "text" } ::
      { name := "Minecraft Version", description := "The Minecraft version for the server.",
        env_variable := "MINECRAFT_VERSION",
        default_value := pyOrStr info.minecraft_version "1.20.1", user_viewable := true,
        user_editable := true, rules := "required|string|max:20", field_type := "text" } ::
      suffix := by
  unfold get_variables
  cases ml <;> cases hdl : pyTruthyStr info.download_url <;> simp [hdl] <;> exact ⟨_, rfl⟩

/-! ### Claim theorems -/

/-- Claim C1 (code bug evidence): the loader string "neoforge" — which
contains both the substrings "neoforge" and "forge" — is resolved to
FORGE by the Modrinth fetcher's loader detection, because its "forge"
substring branch is checked before the (thereby unreachable) "neoforge"
branch; the CurseForge fetcher checks "neoforge" first and resolves it
to NEOFORGE as the spec demands for both fetchers. -/
theorem claim_C1_neoforge_precedence_bug :
    modrinthDetectLoader ["neoforge"] = some ModpackType.FORGE ∧
    curseforgeDetectLoader ["neoforge"] = some ModpackType.NEOFORGE ∧
    (fetch_modrinth_info "some-pack" none "u" (ApiResult.ok 200 {})
        (ApiResult.ok 200 [{ loaders := ["neoforge"] }])).modloader =
      some ModpackType.FORGE ∧
    (fetch_curseforge_info "some-pack" none "u" "key"
        (ApiResult.ok 200 [{ latestFiles := [{ gameVersions := ["neoforge"] }] }])).modloader =
      some ModpackType.NEOFORGE ∧
    strContains "neoforge" "forge" = true ∧ strContains "neoforge" "neoforge" = true := by
  decide

/-- Claim C2 (counterexample): a URL matching no platform does yield a
source-UNKNOWN `ModpackInfo`, but the generated egg's installation
script is the Forge template, not the Vanilla one — the generator
defaults a missing modloader to FORGE. -/
theorem claim_C2_counterexample :
    (detect_source "https://example.org/a").1 = ModpackSource.UNKNOWN ∧
    (fetch_modpack_info "https://example.org/a" (.error "net down") (.error "net down") ""
        (.error "net down")).source = ModpackSource.UNKNOWN ∧
    (generate_egg_json
          (fetch_modpack_info "https://example.org/a" (.error "net down") (.error "net down") ""
            (.error "net down")) none "ts").scripts.installation.script =
      get_forge_install_script "1.20.1" "latest"
        (fetch_modpack_info "https://example.org/a" (.error "net down") (.error "net down") ""
          (.error "net down")) ∧
    (generate_egg_json
          (fetch_modpack_info "https://example.org/a" (.error "net down") (.error "net down") ""
            (.error "net down")) none "ts").scripts.installation.script ≠
      get_vanilla_install_script "1.20.1"
        (fetch_modpack_info "https://example.org/a" (.error "net down") (.error "net down") ""
          (.error "net down")) := by
  have hd : (detect_source "https://example.org/a").1 = ModpackSource.UNKNOWN := by decide
  have hf := fetch_unknown_eq "https://example.org/a" (.error "net down") (.error "net down") ""
    (.error "net down") hd
  refine ⟨hd, ?_, ?_, ?_⟩ <;> rw [hf]
  · rfl
  · rfl
  · decide

/-- Claim C2 (amended): for every URL on which the source detector
matches no platform pattern, the pipeline still succeeds and yields a
ModpackInfo with source UNKNOWN together with a fallback EggDescriptor
whose installation script is the Forge install-script template (the
generator defaults the missing modloader to FORGE); generation never
fails for UNKNOWN source. -/
theorem claim_C2_amended (url t : String) (jv : Option Int) (pr : ApiResult MRProject)
    (vr : ApiResult (List MRVersion)) (key : String) (sr : ApiResult (List CFMod))
    (h : (detect_source url).1 = ModpackSource.UNKNOWN) :
    (fetch_modpack_info url pr vr key sr).source = ModpackSource.UNKNOWN ∧
    (generate_egg_json (fetch_modpack_info url pr vr key sr) jv t).scripts.installation.script =
      get_forge_install_script "1.20.1" "latest" (fetch_modpack_info url pr vr key sr) := by
  rw [fetch_unknown_eq url pr vr key sr h]
  exact ⟨rfl, rfl⟩

/-- Claim C2 witness: the amended claim instantiated on a concrete
unrecognized URL with failing upstreams. -/
theorem claim_C2_witness :
    (fetch_modpack_info "https://example.org/b" (.error "x") (.error "x") ""
        (.error "x")).source = ModpackSource.UNKNOWN ∧
    (generate_egg_json
          (fetch_modpack_info "https://example.org/b" (.error "x") (.error "x") "" (.error "x"))
          none "ts").scripts.installation.script =
      get_forge_install_script "1.20.1" "latest"
        (fetch_modpack_info "https://example.org/b" (.error "x") (.error "x") "" (.error "x")) :=
  claim_C2_amended "https://example.org/b" "ts" none (.error "x") (.error "x") "" (.error "x")
    (by decide)

/-- Claim C3: the Java-version inference is a total function realizing
the claimed table — null and unparseable inputs give 17; for
major 1, minor ≥ 21 gives 21, 21 > minor ≥ 18 gives 17, 18 > minor ≥ 17
gives 16, 17 > minor ≥ 12 gives 11, minor < 12 gives 8; any other major
gives 21 — together with the claim's concrete examples. -/
theorem claim_C3_java_version_table (m₁ m₂ m₃ m₄ m₅ p q M : Nat)
    (h₁ : 21 ≤ m₁) (h₂a : 18 ≤ m₂) (h₂b : m₂ < 21) (h₃a : 17 ≤ m₃) (h₃b : m₃ < 18)
    (h₄a : 12 ≤ m₄) (h₄b : m₄ < 17) (h₅ : m₅ < 12) (hM : M ≠ 1) :
    detect_java_version none = 17 ∧
    detect_java_version (some "garbage") = 17 ∧
    detect_java_version (some (verS3 1 m₁ p)) = 21 ∧
    detect_java_version (some (verS2 1 m₁)) = 21 ∧
    detect_java_version (some (verS3 1 m₂ p)) = 17 ∧
    detect_java_version (some (verS3 1 m₃ p)) = 16 ∧
    detect_java_version (some (verS2 1 m₃)) = 16 ∧
    detect_java_version (some (verS3 1 m₄ p)) = 11 ∧
    detect_java_version (some (verS3 1 m₅ p)) = 8 ∧
    detect_java_version (some (verS2 M q)) = 21 ∧
    detect_java_version (some "1.21.1") = 21 ∧
    detect_java_version (some "1.18.2") = 17 ∧
    detect_java_version (some "1.17") = 16 ∧
    detect_java_version (some "1.12.2") = 11 ∧
    detect_java_version (some "1.8.9") = 8 ∧
    detect_java_version (some "2.0") = 21 := by
  refine ⟨by decide, by decide, ?_, ?_, ?_, ?_, ?_, ?_, ?_, ?_,
    by decide, by decide, by decide, by decide, by decide, by decide⟩ <;>
    first
      | (rw [detect_java_verS3]; unfold djTable; split_ifs <;> omega)
      | (rw [detect_java_verS2]; unfold djTable; split_ifs <;> omega)

/-- Claim C3 witness: the table theorem instantiated at the tier
boundaries 21, 18, 17, 12, 0 and major 2. -/
theorem claim_C3_witness :
    detect_java_version (some (verS3 1 21 1)) = 21 ∧
    detect_java_version (some (verS2 2 0)) = 21 := by
  have h := claim_C3_java_version_table 21 18 17 12 0 1 0 2 (by decide) (by decide) (by decide)
    (by decide) (by decide) (by decide) (by decide) (by decide) (by decide)
  exact ⟨h.2.2.1, h.2.2.2.2.2.2.2.2.2.1⟩

/-- Claim C4: recommended server memory is the claimed five-tier step
function of the mod count, matches the claim's boundary table, and is
the default value of the generated egg's (not user-editable) Server
Memory variable. -/
theorem claim_C4_memory_tiers (mc₁ mc₂ mc₃ mc₄ mc₅ : Int) (info : ModpackInfo)
    (jv : Option Int) (t : String)
    (h₁ : 200 < mc₁) (h₂a : 100 < mc₂) (h₂b : mc₂ ≤ 200) (h₃a : 50 < mc₃) (h₃b : mc₃ ≤ 100)
    (h₄a : 20 < mc₄) (h₄b : mc₄ ≤ 50) (h₅ : mc₅ ≤ 20) :
    get_recommended_memory mc₁ = "6144" ∧
    get_recommended_memory mc₂ = "4096" ∧
    get_recommended_memory mc₃ = "3072" ∧
    get_recommended_memory mc₄ = "2048" ∧
    get_recommended_memory mc₅ = "1536" ∧
    get_recommended_memory 20 = "1536" ∧ get_recommended_memory 21 = "2048" ∧
    get_recommended_memory 50 = "2048" ∧ get_recommended_memory 51 = "3072" ∧
    get_recommended_memory 100 = "3072" ∧ get_recommended_memory 101 = "4096" ∧
    get_recommended_memory 200 = "4096" ∧ get_recommended_memory 201 = "6144" ∧
    (generate_egg_json info jv t).variableList.get? 1 =
      some { name := "Server Memory",
             description := "The maximum amount of memory (in MB) for the server.",
             env_variable := "SERVER_MEMORY",
             default_value := get_recommended_memory info.mod_count, user_viewable := true,
             user_editable := false, rules := "required|numeric|min:512",
             field_type := "text" } := by
  refine ⟨?_, ?_, ?_, ?_, ?_, by decide, by decide, by decide, by decide, by decide, by decide,
    by decide, by decide, ?_⟩
  · unfold get_recommended_memory
    split_ifs <;> first | rfl | (exfalso; omega)
  · unfold get_recommended_memory
    split_ifs <;> first | rfl | (exfalso; omega)
  · unfold get_recommended_memory
    split_ifs <;> first | rfl | (exfalso; omega)
  · unfold get_recommended_memory
    split_ifs <;> first | rfl | (exfalso; omega)
  · unfold get_recommended_memory
    split_ifs <;> first | rfl | (exfalso; omega)
  · obtain ⟨suf, hsuf⟩ :=
      get_variables_base info (pyOrLoader info.modloader) (pyOrInt jv info.java_version)
    have hv : (generate_egg_json info jv t).variableList =
        get_variables info (pyOrLoader info.modloader) (pyOrInt jv info.java_version) := rfl
    rw [hv, hsuf]
    rfl

/-- Claim C4 witness: the memory-tier theorem at the claimed boundary
input 201 (and the variable-list fact at a concrete egg). -/
theorem claim_C4_witness :
    ((201 : Int) > 200) ∧ get_recommended_memory 201 = "6144" :=
  ⟨by decide, (claim_C4_memory_tiers 201 101 51 21 20 {} none "ts" (by decide) (by decide)
    (by decide) (by decide) (by decide) (by decide) (by decide) (by decide)).1⟩

/-- Claim C5: the egg generator is deterministic and side-effect-free —
it is a pure function of the ModpackInfo, the Java override and the
timestamp; with the embedded `exported_at` timestamp field overwritten,
two calls with identical info and override agree exactly, and
`exported_at` is precisely the current-time argument. -/
theorem claim_C5_generator_deterministic (info : ModpackInfo) (jv : Option Int)
    (t₁ t₂ : String) :
    (generate_egg_json info jv t₁).exported_at = t₁ ∧
    { generate_egg_json info jv t₁ with exported_at := "" } =
      { generate_egg_json info jv t₂ with exported_at := "" } :=
  ⟨rfl, rfl⟩

/-- Claim C6: neither fetcher ever raises — on any exception from either
Modrinth request, on any exception from the CurseForge request, and on a
missing CurseForge API key, fetch returns a ModpackInfo whose name is
the hyphen-replaced, title-cased slug and whose description records the
failure reason. -/
theorem claim_C6_fetcher_fallback (slug url : String) (vid : Option String)
    (e₁ e₂ e₃ : String) (ps : Nat) (pd : MRProject) (vr : ApiResult (List MRVersion))
    (key : String) (sr : ApiResult (List CFMod)) (hkey : key ≠ "") :
    ((fetch_modrinth_info slug vid url (.error e₁) vr).name = pyTitle (replaceDash slug) ∧
     (fetch_modrinth_info slug vid url (.error e₁) vr).description =
       some ("Modrinth modpack: " ++ slug ++ " (Error fetching details: " ++ e₁ ++ ")")) ∧
    ((fetch_modrinth_info slug vid url (ApiResult.ok ps pd) (.error e₂)).name =
       pyTitle (replaceDash slug) ∧
     (fetch_modrinth_info slug vid url (ApiResult.ok ps pd) (.error e₂)).description =
       some ("Modrinth modpack: " ++ slug ++ " (Error fetching details: " ++ e₂ ++ ")")) ∧
    ((fetch_curseforge_info slug vid url key (.error e₃)).name = pyTitle (replaceDash slug) ∧
     (fetch_curseforge_info slug vid url key (.error e₃)).description =
       some ("CurseForge modpack: " ++ slug ++ " (Error: " ++ e₃ ++ ")")) ∧
    ((fetch_curseforge_info slug vid url "" sr).name = pyTitle (replaceDash slug) ∧
     (fetch_curseforge_info slug vid url "" sr).description =
       some ("CurseForge modpack: " ++ slug ++ " (API key not configured)")) := by
  refine ⟨⟨rfl, rfl⟩, ⟨rfl, rfl⟩, ?_, ⟨rfl, rfl⟩⟩
  unfold fetch_curseforge_info
  rw [if_neg hkey]
  exact ⟨rfl, rfl⟩

/-- Claim C6 witness: the fallback theorem instantiated on the slug
"all-the-mods-9" with concrete failures, checking the title-cased name
concretely. -/
theorem claim_C6_witness :
    (fetch_curseforge_info "all-the-mods-9" none "u" "cfg-key" (.error "timeout")).name =
      pyTitle (replaceDash "all-the-mods-9") ∧
    pyTitle (replaceDash "all-the-mods-9") = "All The Mods 9" :=
  ⟨(claim_C6_fetcher_fallback "all-the-mods-9" "u" none "a" "b" "timeout" 200 {} (.error "x")
      "cfg-key" (.error "y") (by decide)).2.2.1.1,
   by decide⟩

/-! ### Statement helpers for the variable-list claim -/

/-- The loader-version variables among a variable list (statement helper
for the variable-list claim). -/
def loaderVersionVars (l : List EggVariable) : List EggVariable :=
  l.filter (fun v => v.env_variable == "FABRIC_VERSION" || v.env_variable == "FORGE_VERSION" ||
    v.env_variable == "NEOFORGE_VERSION" || v.env_variable == "QUILT_VERSION")

/-- The Modpack-URL variables among a variable list (statement helper). -/
def modpackUrlVars (l : List EggVariable) : List EggVariable :=
  l.filter (fun v => v.env_variable == "MODPACK_URL")

/-- Display name of each loader's version variable, as the claim words it. -/
def loaderVarName : ModpackType → String
  | .FABRIC => "Fabric Version"
  | .FORGE => "Forge Version"
  | .NEOFORGE => "NeoForge Version"
  | .QUILT => "Quilt Version"
  | .VANILLA => ""

/-- Environment key of each loader's version variable, as the claim words it. -/
def loaderEnvKey : ModpackType → String
  | .FABRIC => "FABRIC_VERSION"
  | .FORGE => "FORGE_VERSION"
  | .NEOFORGE => "NEOFORGE_VERSION"
  | .QUILT => "QUILT_VERSION"
  | .VANILLA => ""

/-- Default-value sentinel of each loader's version variable, as the
claim words it: "latest" for Fabric, NeoForge and Quilt, "recommended"
for Forge. -/
def loaderSentinel : ModpackType → String
  | .FORGE => "recommended"
  | _ => "latest"

/-- Claim C7 (counterexample): with `modloader = VANILLA` the generator
appends no loader-version variable at all (the claim demands exactly
one) and with the non-null `download_url = ""` it appends no Modpack-URL
variable (the claim demands one for every non-null url); moreover with
the non-null `modloader_version = ""` the Fabric variable's default is
the sentinel "latest", not the set value. -/
theorem claim_C7_counterexample :
    ((generate_egg_json { modloader := some ModpackType.VANILLA, download_url := some "" }
          none "ts").variableList.map (fun v => v.env_variable) =
      ["SERVER_JARFILE", "SERVER_MEMORY", "MINECRAFT_VERSION"]) ∧
    ((generate_egg_json { modloader := some ModpackType.FABRIC, modloader_version := some "" }
          none "ts").variableList.map (fun v => (v.env_variable, v.default_value))).get? 3 =
      some ("FABRIC_VERSION", "latest") := by
  decide

/-- Claim C7 (amended): the variable list always starts with the Server
Jar File ("server.jar" default), Server Memory and Minecraft Version
records; when the effective modloader is Fabric, Forge, NeoForge or
Quilt — the only values the fetchers ever produce — exactly one
loader-version variable matching it is appended, with default
`modloader_version` when that is set and nonempty and the
loader-specific sentinel ("latest" for Fabric/NeoForge/Quilt,
"recommended" for Forge) otherwise; for an explicit VANILLA modloader
none is appended; and a Modpack URL variable is appended iff
`download_url` is truthy (non-null and nonempty). -/
theorem claim_C7_amended (infoA infoB infoC infoD : ModpackInfo) (jv : Option Int) (t : String)
    (hA : pyOrLoader infoA.modloader ≠ ModpackType.VANILLA)
    (hB : pyOrLoader infoB.modloader = ModpackType.VANILLA)
    (hC : pyTruthyStr infoC.download_url = true)
    (hD : pyTruthyStr infoD.download_url = false) :
    ((generate_egg_json infoA jv t).variableList.take 3 =
      [{ name := "Server Jar File", description := "The name of the server jarfile to run.",
         env_variable := "SERVER_JARFILE", default_value := "server.jar", user_viewable := true,
         user_editable := true, rules := "required|string|max:50", field_type := "text" },
       { name := "Server Memory",
         description := "The maximum amount of memory (in MB) for the server.",
         env_variable := "SERVER_MEMORY",
         default_value := get_recommended_memory infoA.mod_count, user_viewable := true,
         user_editable := false, rules := "required|numeric|min:512", field_type := "text" },
       { name := "Minecraft Version", description := "The Minecraft version for the server.",
         env_variable := "MINECRAFT_VERSION",
         default_value := pyOrStr infoA.minecraft_version "1.20.1", user_viewable := true,
         user_editable := true, rules := "required|string|max:20", field_type := "text" }]) ∧
    ((loaderVersionVars (generate_egg_json infoA jv t).variableList).map
        (fun v => (v.name, v.env_variable, v.default_value)) =
      [(loaderVarName (pyOrLoader infoA.modloader), loaderEnvKey (pyOrLoader infoA.modloader),
        pyOrStr infoA.modloader_version (loaderSentinel (pyOrLoader infoA.modloader)))]) ∧
    (loaderVersionVars (generate_egg_json infoB jv t).variableList = []) ∧
    ((modpackUrlVars (generate_egg_json infoC jv t).variableList).map
        (fun v => v.default_value) = [infoC.download_url.getD ""]) ∧
    (modpackUrlVars (generate_egg_json infoD jv t).variableList = []) := by
  have hvl : ∀ (info : ModpackInfo), (generate_egg_json info jv t).variableList =
      get_variables info (pyOrLoader info.modloader) (pyOrInt jv info.java_version) :=
    fun _ => rfl
  refine ⟨?_, ?_, ?_, ?_, ?_⟩
  · obtain ⟨suf, hsuf⟩ :=
      get_variables_base infoA (pyOrLoader infoA.modloader) (pyOrInt jv infoA.java_version)
    rw [hvl, hsuf]
    rfl
  · rw [hvl]
    rcases hmA : infoA.modloader with _ | ml
    · cases hdl : pyTruthyStr infoA.download_url <;>
        simp [get_variables, pyOrLoader, hmA, hdl, loaderVersionVars, loaderVarName,
          loaderEnvKey, loaderSentinel]
    · cases ml <;>
        first
          | (cases hdl : pyTruthyStr infoA.download_url <;>
              simp [get_variables, pyOrLoader, hmA, hdl, loaderVersionVars, loaderVarName,
                loaderEnvKey, loaderSentinel] <;>
              done)
          | simp [pyOrLoader, hmA] at hA
  · rw [hvl]
    rcases hmB : infoB.modloader with _ | ml
    · simp [pyOrLoader, hmB] at hB
    · cases ml <;>
        first
          | (cases hdl : pyTruthyStr infoB.download_url <;>
              simp [get_variables, pyOrLoader, hmB, hdl, loaderVersionVars] <;>
              done)
          | simp [pyOrLoader, hmB] at hB
  · rw [hvl]
    rcases hmC : infoC.modloader with _ | ml
    · simp [get_variables, pyOrLoader, hmC, hC, modpackUrlVars]
    · cases ml <;> simp [get_variables, pyOrLoader, hmC, hC, modpackUrlVars]
  · rw [hvl]
    rcases hmD : infoD.modloader with _ | ml
    · simp [get_variables, pyOrLoader, hmD, hD, modpackUrlVars]
    · cases ml <;> simp [get_variables, pyOrLoader, hmD, hD, modpackUrlVars]

/-- Claim C7 witness: the amended claim instantiated on concrete infos
for each case. -/
theorem claim_C7_witness :
    (loaderVersionVars (generate_egg_json { modloader := some ModpackType.NEOFORGE } none
          "ts").variableList).map (fun v => (v.name, v.env_variable, v.default_value)) =
      [("NeoForge Version", "NEOFORGE_VERSION", "latest")] := by
  have h := claim_C7_amended { modloader := some ModpackType.NEOFORGE }
    { modloader := some ModpackType.VANILLA } { download_url := some "https://x/y.zip" } {}
    none "ts" (by decide) (by decide) (by decide) (by decide)
  exact h.2.1

/-- Claim C8 (counterexample): with the non-null override 0 the
generator does not use the override — the installation container and
Docker-image map come from `info.java_version` (11 here), not 0,
because Python's `or` treats the integer 0 as falsy. -/
theorem claim_C8_counterexample :
    (generate_egg_json { java_version := 11 } (some 0) "ts").scripts.installation.container =
      "eclipse-temurin:11-jdk" ∧
    (generate_egg_json { java_version := 11 } (some 0) "ts").scripts.installation.container ≠
      "eclipse-temurin:0-jdk" ∧
    (generate_egg_json { java_version := 11 } (some 0) "ts").docker_images.map Prod.fst =
      ["Java 11", "Java 17", "Java 21"] := by
  decide

/-- Claim C8 (amended): every provided nonzero integer override is the
effective Java version — it determines the Docker-image map, the
installation container tag and the startup-command flag profile — and
when the override is null or zero the effective Java version is
`info.java_version`. -/
theorem claim_C8_amended (info : ModpackInfo) (v : Int) (t : String) (hv : v ≠ 0) :
    (generate_egg_json info (some v) t).scripts.installation.container =
      "eclipse-temurin:" ++ toString v ++ "-jdk" ∧
    (generate_egg_json info (some v) t).docker_images.get? 0 =
      some ("Java " ++ toString v, "ghcr.io/pterodactyl/yolks:java_" ++ toString v) ∧
    (generate_egg_json info (some v) t).docker_images = get_docker_images v ∧
    (generate_egg_json info (some v) t).startup =
      get_startup_command (pyOrLoader info.modloader) v ∧
    (generate_egg_json info (some 0) t).scripts.installation.container =
      "eclipse-temurin:" ++ toString info.java_version ++ "-jdk" ∧
    (generate_egg_json info none t).scripts.installation.container =
      "eclipse-temurin:" ++ toString info.java_version ++ "-jdk" ∧
    (generate_egg_json info none t).docker_images = get_docker_images info.java_version ∧
    (generate_egg_json info none t).startup =
      get_startup_command (pyOrLoader info.modloader) info.java_version := by
  have hpy : pyOrInt (some v) info.java_version = v := by
    show (if v = 0 then info.java_version else v) = v
    rw [if_neg hv]
  refine ⟨?_, ?_, ?_, ?_, rfl, rfl, rfl, rfl⟩
  · show "eclipse-temurin:" ++ toString (pyOrInt (some v) info.java_version) ++ "-jdk" = _
    rw [hpy]
  · show (get_docker_images (pyOrInt (some v) info.java_version)).get? 0 = _
    rw [hpy]
    unfold get_docker_images
    split_ifs <;> rfl
  · show get_docker_images (pyOrInt (some v) info.java_version) = _
    rw [hpy]
  · show get_startup_command (pyOrLoader info.modloader) (pyOrInt (some v) info.java_version) = _
    rw [hpy]

/-- Claim C8 witness: the amended claim at override 8 on a default
ModpackInfo. -/
theorem claim_C8_witness :
    ((8 : Int) ≠ 0) ∧
    (generate_egg_json {} (some 8) "ts").scripts.installation.container =
      "eclipse-temurin:" ++ toString (8 : Int) ++ "-jdk" :=
  ⟨by decide, (claim_C8_amended {} 8 "ts" (by decide)).1⟩

/-- Claim C9: for every URL the source detector classifies as UNKNOWN,
the fetched ModpackInfo is exactly the placeholder — every
platform-specific field keeps its dataclass default (empty slug and
project id, no file id, no minecraft version, no modloader or loader
version, no download url, mod count 0, java version 17). -/
theorem claim_C9_unknown_defaults (url : String) (pr : ApiResult MRProject)
    (vr : ApiResult (List MRVersion)) (key : String) (sr : ApiResult (List CFMod))
    (h : (detect_source url).1 = ModpackSource.UNKNOWN) :
    fetch_modpack_info url pr vr key sr =
      { name := "Unknown Modpack", source := ModpackSource.UNKNOWN, source_url := url,
        slug := "", project_id := "", minecraft_version := none, modloader := none,
        modloader_version := none, java_version := 17,
        description :=
          some "Unable to parse modpack URL. Please provide a valid CurseForge or Modrinth URL.",
        icon_url := none, author := none, mod_count := 0, download_url := none,
        file_id := none } :=
  fetch_unknown_eq url pr vr key sr h

/-- Claim C9 witness: the defaults theorem at a concrete unrecognized
URL. -/
theorem claim_C9_witness :
    (detect_source "https://nota.match/x").1 = ModpackSource.UNKNOWN ∧
    fetch_modpack_info "https://nota.match/x" (.error "a") (.error "b") "" (.error "c") =
      { name := "Unknown Modpack", source := ModpackSource.UNKNOWN,
        source_url := "https://nota.match/x", slug := "", project_id := "",
        minecraft_version := none, modloader := none, modloader_version := none,
        java_version := 17,
        description :=
          some "Unable to parse modpack URL. Please provide a valid CurseForge or Modrinth URL.",
        icon_url := none, author := none, mod_count := 0, download_url := none,
        file_id := none } :=
  ⟨by decide,
   claim_C9_unknown_defaults "https://nota.match/x" (.error "a") (.error "b") "" (.error "c")
     (by decide)⟩

/-- Claim C10 (counterexample): a string containing both a Modrinth and
a CurseForge modpack-URL fragment is classified CURSEFORGE, not
MODRINTH, because the CurseForge patterns are searched first — so
"contains a platform fragment implies classified as that platform" fails
as stated for Modrinth. -/
theorem claim_C10_counterexample :
    containsSeq (mrLit ++ ['a'])
      "modrinth.com/modpack/abc curseforge.com/minecraft/modpacks/xyz".toList = true ∧
    (detect_source "modrinth.com/modpack/abc curseforge.com/minecraft/modpacks/xyz").1 =
      ModpackSource.CURSEFORGE ∧
    (detect_source "modrinth.com/modpack/abc curseforge.com/minecraft/modpacks/xyz").1 ≠
      ModpackSource.MODRINTH := by
  decide

/-- Claim C10 (amended): the detector searches its patterns unanchored,
anywhere in the string.  Any string containing the CurseForge fragment
followed by a slug character is classified CURSEFORGE regardless of
scheme, host position or surrounding text; a string containing the
Modrinth fragment likewise is classified MODRINTH provided the
CurseForge patterns (searched first) match nowhere in it; and the
extracted slug is the maximal run of `[a-zA-Z0-9-]` after the leftmost
fragment occurrence, truncated at the first other character (such as an
underscore or dot). -/
theorem claim_C10_amended (p₁ s₁ : List Char) (c₁ : Char) (p₂ s₂ : List Char) (c₂ : Char)
    (p₃ rest₃ : List Char) (slug₃ : List Char) (d₃ : Char)
    (h₁ : isSlugChar c₁ = true)
    (h₂ : isSlugChar c₂ = true)
    (h₂a : searchGroups cfLit1 isSlugChar filesLit isDigitC (p₂ ++ mrLit ++ c₂ :: s₂) = none)
    (h₂b : searchGroups cfLit2 isSlugChar filesLit isDigitC (p₂ ++ mrLit ++ c₂ :: s₂) = none)
    (h₃ne : slug₃ ≠ [])
    (h₃all : ∀ c ∈ slug₃, isSlugChar c = true)
    (h₃d : isSlugChar d₃ = false)
    (h₃p : noMatchBefore cfLit1 isSlugChar filesLit isDigitC p₃
        (cfLit1 ++ (slug₃ ++ d₃ :: rest₃)) = true) :
    (detect_source (String.mk (p₁ ++ cfLit1 ++ c₁ :: s₁))).1 = ModpackSource.CURSEFORGE ∧
    (detect_source (String.mk (p₂ ++ mrLit ++ c₂ :: s₂))).1 = ModpackSource.MODRINTH ∧
    (detect_source (String.mk (p₃ ++ (cfLit1 ++ (slug₃ ++ d₃ :: rest₃))))).2.1 =
      some (String.mk slug₃) := by
  refine ⟨?_, ?_, ?_⟩
  · have hs := searchGroups_isSome_of_contains cfLit1 isSlugChar filesLit isDigitC p₁ c₁ s₁ h₁
    obtain ⟨⟨g1, g2⟩, hr⟩ := Option.isSome_iff_exists.mp hs
    have htl : (String.mk (p₁ ++ cfLit1 ++ c₁ :: s₁)).toList = p₁ ++ cfLit1 ++ c₁ :: s₁ := rfl
    unfold detect_source
    rw [htl, hr]
  · have hs := searchGroups_isSome_of_contains mrLit isSlugChar versionLit isVerIdChar p₂ c₂ s₂ h₂
    obtain ⟨⟨g1, g2⟩, hr⟩ := Option.isSome_iff_exists.mp hs
    have htl : (String.mk (p₂ ++ mrLit ++ c₂ :: s₂)).toList = p₂ ++ mrLit ++ c₂ :: s₂ := rfl
    unfold detect_source
    rw [htl, h₂a, h₂b, hr]
  · have htl : (String.mk (p₃ ++ (cfLit1 ++ (slug₃ ++ d₃ :: rest₃)))).toList =
        p₃ ++ (cfLit1 ++ (slug₃ ++ d₃ :: rest₃)) := rfl
    have hsearch := searchGroups_append_of_noMatchBefore cfLit1 isSlugChar filesLit isDigitC
      p₃ (cfLit1 ++ (slug₃ ++ d₃ :: rest₃)) h₃p
    obtain ⟨v, hv⟩ := searchGroups_slug_head cfLit1 isSlugChar filesLit isDigitC slug₃ d₃ rest₃
      (by decide) h₃ne h₃all h₃d
    unfold detect_source
    rw [htl, hsearch, hv]

/-- Claim C10 witness: the amended detector claim on concrete URLs —
surrounding text around a CurseForge fragment, a plain Modrinth URL, and
a CurseForge path segment "my_pack" whose slug truncates to "my" at the
underscore. -/
theorem claim_C10_witness :
    (detect_source (String.mk ("See ".toList ++ cfLit1 ++ 'a' :: "tm9 here".toList))).1 =
      ModpackSource.CURSEFORGE ∧
    (detect_source (String.mk ("https://".toList ++ mrLit ++ 's' :: "odium-plus".toList))).1 =
      ModpackSource.MODRINTH ∧
    (detect_source (String.mk ("www.".toList ++
        (cfLit1 ++ ("my".toList ++ '_' :: "pack".toList))))).2.1 =
      some (String.mk "my".toList) :=
  claim_C10_amended "See ".toList "tm9 here".toList 'a' "https://".toList "odium-plus".toList 's'
    "www.".toList "pack".toList "my".toList '_' (by decide) (by decide) (by decide) (by decide)
    (by decide) (by decide) (by decide) (by decide)

end Hatchery
